import Mathlib

/-!
Verification of the expense-management receipt pipeline (src/app.py).

Shallow embedding: the normalizer `parse_receipt` with its tolerant date
coercion `to_date`, the lodging-location resolver, the PDF text reader
`extract_text_from_pdf`, the draft/commit line-item state machine of
`main`, and the compliance-request assembly sent to the review service.
Python dynamic values are modelled with explicit sum types; Python
truthiness is made explicit; the attribute access that can raise is
modelled with `Except`.
-/

/-- Calendar date, modelling Python `datetime.date`. -/
structure Date where
  year : Nat
  month : Nat
  day : Nat
deriving DecidableEq, Repr

/-- Date plus time of day, modelling Python `datetime.datetime`. -/
structure DateTime where
  date : Date
  hour : Nat
  minute : Nat
  second : Nat
deriving DecidableEq, Repr

/-- Model of Python `datetime.date()` on a datetime: drop the time part. -/
def DateTime.toDate (t : DateTime) : Date := t.date

/-- Raw dynamic value a recognized date field can carry: a string (the
usual case for Azure `.content`), or an already-constructed date or
datetime, as `to_date` in the source probes with `isinstance`. -/
inductive RawValue where
  | str (s : String)
  | dt (t : DateTime)
  | date (d : Date)
deriving DecidableEq, Repr

/-- Python truthiness of a raw value: a string is falsy iff empty; date
and datetime objects are always truthy. -/
def rawTruthy : RawValue → Bool
  | .str s => !s.isEmpty
  | .dt _ => true
  | .date _ => true

/-- Days in a month, with Gregorian leap years. -/
def daysInMonth (y m : Nat) : Nat :=
  if m = 2 then (if y % 4 = 0 && (y % 100 != 0 || y % 400 = 0) then 29 else 28)
  else if m = 4 || m = 6 || m = 9 || m = 11 then 30 else 31

/-- Numeric value of a list of decimal digit characters. -/
def digitsToNat (cs : List Char) : Nat :=
  cs.foldl (fun n c => n * 10 + (c.toNat - 48)) 0

/-- Model of `datetime.fromisoformat(s).date()` restricted to the
date-only ISO form `YYYY-MM-DD` with range-checked month and day; any
other string fails (returns `none`, modelling the raised `ValueError`). -/
def parseIsoDate (s : String) : Option Date :=
  match s.toList with
  | [y1, y2, y3, y4, h1, m1, m2, h2, d1, d2] =>
    if y1.isDigit && y2.isDigit && y3.isDigit && y4.isDigit && h1 = '-' &&
       m1.isDigit && m2.isDigit && h2 = '-' && d1.isDigit && d2.isDigit then
      let y := digitsToNat [y1, y2, y3, y4]
      let m := digitsToNat [m1, m2]
      let d := digitsToNat [d1, d2]
      if 1 ≤ m && m ≤ 12 && 1 ≤ d && d ≤ daysInMonth y m then
        some ⟨y, m, d⟩
      else none
    else none
  | _ => none

/-- Result of the tolerant date coercion: Python `None`, a proper date,
or the raw value handed back unchanged on parse failure. -/
inductive Coerced where
  | none
  | date (d : Date)
  | raw (v : RawValue)
deriving DecidableEq, Repr

/-- Whether a coerced result is a proper date (a "usable date"). -/
def Coerced.isDate : Coerced → Bool
  | .date _ => true
  | _ => false

/-- Python truthiness of a coerced result: `None` is falsy, a date is
truthy, a raw fallback is as truthy as the underlying value. -/
def coercedTruthy : Coerced → Bool
  | .none => false
  | .date _ => true
  | .raw v => rawTruthy v

/-- Embedding of `to_date` (src/app.py lines 109-121): `None`/falsy input
gives `None`; a datetime is reduced to its date; a date is kept; any other
value is stringified and ISO-parsed, and on parse failure the raw value is
returned unchanged (the bare `except` swallows the error). -/
def to_date (field_value : Option RawValue) : Coerced :=
  match field_value with
  | none => .none
  | some v =>
    if rawTruthy v = false then .none
    else
      match v with
      | .dt t => .date t.toDate
      | .date d => .date d
      | .str s =>
        match parseIsoDate s with
        | some d => .date d
        | none => .raw (.str s)

example : to_date (some (.str "2024-05-01")) = .date ⟨2024, 5, 1⟩ := rfl
example : to_date (some (.str "notadate")) = .raw (.str "notadate") := rfl
example : to_date (some (.str "")) = .none := rfl
example : to_date none = .none := rfl
example : to_date (some (.dt ⟨⟨2024, 5, 1⟩, 10, 0, 0⟩)) = .date ⟨2024, 5, 1⟩ := rfl

/-! ## Document-analysis result model (Azure prebuilt-receipt shape, as
the source probes it) -/

/-- Python truthiness of an optional string: absent or empty is falsy. -/
def optStrTruthy (o : Option String) : Bool := !(o.getD "").isEmpty

/-- The `MerchantName` field: the source reads its `value_string`. -/
structure StrField where
  value_string : Option String
deriving DecidableEq, Repr

/-- A field read through its `content` attribute (`Total` and the three
date fields); `content` is a string when present. -/
structure ContentField where
  content : Option String
deriving DecidableEq, Repr

/-- The `CountryRegion` field: may carry a region code and/or an address
text independently. -/
structure CountryRegionField where
  value_country_region : Option String
  value_address : Option String
deriving DecidableEq, Repr

/-- The address object of a `MerchantAddress` field. -/
structure AddressValue where
  postal_code : Option String
deriving DecidableEq, Repr

/-- The `MerchantAddress` field: its `value_address` attribute may itself
be absent (`None`), which the source does not guard against. -/
structure MerchantAddressField where
  value_address : Option AddressValue
deriving DecidableEq, Repr

/-- The named candidate fields of one recognized document. -/
structure DocFields where
  merchantName : Option StrField
  total : Option ContentField
  countryRegion : Option CountryRegionField
  merchantAddress : Option MerchantAddressField
  arrivalDate : Option ContentField
  departureDate : Option ContentField
  transactionDate : Option ContentField
deriving DecidableEq, Repr

/-- One analysis result: whole-document recognized text plus zero or more
recognized documents (the source only ever reads `documents[0]`). -/
structure AnalysisResult where
  content : String
  documents : List DocFields
deriving DecidableEq, Repr

/-- The amount slot of a parsed record: the numeric default `0.0`, or the
verbatim textual content of the `Total` field. -/
inductive AmountVal where
  | zero
  | str (s : String)
deriving DecidableEq, Repr

/-- The normalized record `parsed_data` built by `parse_receipt`
(field names as in the source dict, including the `logding_location`
spelling). -/
structure ReceiptRecord where
  merchant_name : String
  estimated_amount : AmountVal
  zip_code : String
  check_in : Coerced
  check_out : Coerced
  logding_location : String
  receipt_file_content : String
deriving DecidableEq, Repr

/-- Embedding of the `CountryRegion` resolution (src/app.py lines 89-97):
both sub-fields truthy gives their concatenation (region code first, no
separator), one truthy gives that one, neither leaves the empty default. -/
def resolveLodging (cr : Option CountryRegionField) : String :=
  match cr with
  | none => ""
  | some f =>
    if optStrTruthy f.value_country_region || optStrTruthy f.value_address then
      if optStrTruthy f.value_country_region && optStrTruthy f.value_address then
        f.value_country_region.getD "" ++ f.value_address.getD ""
      else if optStrTruthy f.value_country_region then
        f.value_country_region.getD ""
      else if optStrTruthy f.value_address then
        f.value_address.getD ""
      else ""
    else ""

/-- Embedding of the zip-code step (src/app.py lines 100-102): reading
`address_field.value_address.postal_code` raises when `value_address` is
`None`; a falsy postal code leaves the empty default. -/
def zipResult (f : Option MerchantAddressField) : Except String String :=
  match f with
  | none => .ok ""
  | some fld =>
    match fld.value_address with
    | none => .error "AttributeError: NoneType object has no attribute postal_code"
    | some av => .ok (if optStrTruthy av.postal_code then av.postal_code.getD "" else "")

/-- The coerced date of one candidate date field, as computed at the
`parse_receipt` call sites (absent field gives `None`, else `to_date` of
the field's `content`). -/
def dateFieldCoerced (f : Option ContentField) : Coerced :=
  match f with
  | none => .none
  | some fld => to_date (fld.content.map RawValue.str)

/-- Embedding of `parse_receipt` (src/app.py lines 60-135) from the
analysis result on: defaults first, whole-document text always stored, no
recognized document returns the defaults, otherwise each candidate field
is resolved; the merchant-address step can raise (modelled as `.error`). -/
def parse_receipt (result : AnalysisResult) : Except String ReceiptRecord :=
  let base : ReceiptRecord :=
    { merchant_name := ""
      estimated_amount := .zero
      zip_code := ""
      check_in := .none
      check_out := .none
      logding_location := ""
      receipt_file_content := result.content }
  match result.documents.head? with
  | none => .ok base
  | some fields =>
    let mn : String :=
      match fields.merchantName with
      | some f => if optStrTruthy f.value_string then f.value_string.getD "" else ""
      | none => ""
    let amt : AmountVal :=
      match fields.total with
      | some f => if optStrTruthy f.content then .str (f.content.getD "") else .zero
      | none => .zero
    let lodging := resolveLodging fields.countryRegion
    match zipResult fields.merchantAddress with
    | .error e => .error e
    | .ok zip =>
      let arrival_date := dateFieldCoerced fields.arrivalDate
      let departure_date := dateFieldCoerced fields.departureDate
      let transaction_date := dateFieldCoerced fields.transactionDate
      let ci_co : Coerced × Coerced :=
        if coercedTruthy arrival_date && coercedTruthy departure_date then
          (arrival_date, departure_date)
        else if coercedTruthy transaction_date then
          (transaction_date, transaction_date)
        else (.none, .none)
      .ok { base with
              merchant_name := mn
              estimated_amount := amt
              logding_location := lodging
              zip_code := zip
              check_in := ci_co.1
              check_out := ci_co.2 }

/-- The coerced arrival date of an analysis result, as `parse_receipt`
computes it (absent when no document was recognized). -/
def arrivalOf (res : AnalysisResult) : Coerced :=
  match res.documents.head? with
  | none => .none
  | some f => dateFieldCoerced f.arrivalDate

/-- The coerced departure date of an analysis result. -/
def departureOf (res : AnalysisResult) : Coerced :=
  match res.documents.head? with
  | none => .none
  | some f => dateFieldCoerced f.departureDate

/-- The coerced transaction date of an analysis result. -/
def transactionOf (res : AnalysisResult) : Coerced :=
  match res.documents.head? with
  | none => .none
  | some f => dateFieldCoerced f.transactionDate

/-- All-absent document fields, for building concrete inputs. -/
def emptyFields : DocFields :=
  { merchantName := none
    total := none
    countryRegion := none
    merchantAddress := none
    arrivalDate := none
    departureDate := none
    transactionDate := none }

example :
    parse_receipt { content := "txt", documents := [] } =
      .ok { merchant_name := "", estimated_amount := .zero, zip_code := ""
            check_in := .none, check_out := .none, logding_location := ""
            receipt_file_content := "txt" } := rfl

example :
    (parse_receipt { content := "t", documents :=
        [{ emptyFields with
             arrivalDate := some ⟨some "2024-05-01"⟩
             departureDate := some ⟨some "2024-05-03"⟩
             transactionDate := some ⟨some "2024-05-04"⟩ }] }).map
      (fun r => (r.check_in, r.check_out)) =
      .ok (.date ⟨2024, 5, 1⟩, .date ⟨2024, 5, 3⟩) := rfl

example :
    (parse_receipt { content := "t", documents :=
        [{ emptyFields with
             transactionDate := some ⟨some "2024-05-04"⟩ }] }).map
      (fun r => (r.check_in, r.check_out)) =
      .ok (.date ⟨2024, 5, 4⟩, .date ⟨2024, 5, 4⟩) := rfl

/-! ## PDF text reader -/

/-- Model of Python `str.strip()`: drop whitespace from both ends. -/
def pyStrip (s : String) : String :=
  ⟨((s.data.dropWhile Char.isWhitespace).reverse.dropWhile Char.isWhitespace).reverse⟩

/-- Embedding of `extract_text_from_pdf` (src/app.py lines 137-150). The
document source is either the page texts fitz would yield or a raised
exception message; the loop appends each page text plus a newline, the
result is stripped; any failure is caught and returned as a plain
`"Error: ..."` string. -/
def extract_text_from_pdf (src : Except String (List String)) : String :=
  match src with
  | .ok pages => pyStrip (pages.foldl (fun text page => text ++ page ++ "\n") "")
  | .error e => "Error: " ++ e

example : extract_text_from_pdf (.error "no such file") = "Error: no such file" := rfl
example : extract_text_from_pdf (.ok ["a", "b"]) = "a\nb" := by decide

/-! ## Line items, draft state, commit, display views -/

/-- A committed line item (`new_item`, src/app.py lines 244-255): every
value is a string at commit time (the form widgets return strings and the
dates go through `str`), and `receipt_file` carries the raw receipt
content. -/
structure LineItem where
  expense_name : String
  expense_type : String
  cost_center : String
  merchant_name : String
  lodging_location : String
  check_in : String
  check_out : String
  zip_code : String
  estimated_amount : String
  receipt_file : String
deriving DecidableEq, Repr

/-- The user-entered form values at commit time: the nine text widgets of
the line-item form (all strings). -/
structure FormValues where
  expense_name : String
  expense_type : String
  cost_center : String
  merchant_name : String
  lodging_location : String
  check_in : String
  check_out : String
  zip_code : String
  estimated_amount : String
deriving DecidableEq, Repr

/-- A draft date slot: initialized to a Python `date`, may later hold a
coerced extraction result. -/
inductive DraftDate where
  | pydate (d : Date)
  | extracted (c : Coerced)
deriving DecidableEq, Repr

/-- The session draft `st.session_state.draft_fields`. -/
structure DraftFields where
  expense_name : String
  expense_type : String
  cost_center : String
  merchant_name : String
  lodging_location : String
  check_in : DraftDate
  check_out : DraftDate
  zip_code : String
  estimated_amount : AmountVal
  receipt_file : String
deriving DecidableEq, Repr

/-- The draft reset values (src/app.py lines 161-173 and 258-270): empty
strings, expense type `"Hotel/Lodging"`, today for both dates, the
numeric zero amount, empty receipt content. -/
def emptyDraft (today : Date) : DraftFields :=
  { expense_name := ""
    expense_type := "Hotel/Lodging"
    cost_center := ""
    merchant_name := ""
    lodging_location := ""
    check_in := .pydate today
    check_out := .pydate today
    zip_code := ""
    estimated_amount := .zero
    receipt_file := "" }

/-- The session state the main loop keeps: the append-only line-item list
and the single draft. -/
structure SessionState where
  line_items : List LineItem
  draft_fields : DraftFields
deriving DecidableEq, Repr

/-- The `new_item` dict built on commit: the user-entered form values
(dates through `str`, the identity on the strings the widgets return)
plus the draft's raw receipt content. -/
def mkLineItem (form : FormValues) (receipt : String) : LineItem :=
  { expense_name := form.expense_name
    expense_type := form.expense_type
    cost_center := form.cost_center
    merchant_name := form.merchant_name
    lodging_location := form.lodging_location
    check_in := form.check_in
    check_out := form.check_out
    zip_code := form.zip_code
    estimated_amount := form.estimated_amount
    receipt_file := receipt }

/-- Embedding of the "Add This Line Item" branch (src/app.py lines
242-270): append the new item built from the form values and the draft's
receipt content, then reset the draft to its defaults. -/
def commit (st : SessionState) (form : FormValues) (today : Date) : SessionState :=
  { line_items := st.line_items ++ [mkLineItem form st.draft_fields.receipt_file]
    draft_fields := emptyDraft today }

/-- Iterated commit cycles: one `commit` per form-values record, in
order. -/
def commitMany (st : SessionState) (forms : List FormValues) (today : Date) :
    SessionState :=
  forms.foldl (fun s f => commit s f today) st

/-- The items a sequence of commit cycles appends: the first draws its
receipt content from the draft at hand, every later cycle from the reset
(empty) draft. -/
def commitItems (receipt : String) : List FormValues → List LineItem
  | [] => []
  | f :: fs => mkLineItem f receipt :: commitItems "" fs

/-- The Python dict view of a line item: its ten keys in insertion order
with their string values. -/
def toDict (it : LineItem) : List (String × String) :=
  [("expense_name", it.expense_name),
   ("expense_type", it.expense_type),
   ("cost_center", it.cost_center),
   ("merchant_name", it.merchant_name),
   ("lodging_location", it.lodging_location),
   ("check_in", it.check_in),
   ("check_out", it.check_out),
   ("zip_code", it.zip_code),
   ("estimated_amount", it.estimated_amount),
   ("receipt_file", it.receipt_file)]

/-- The per-item display copies (src/app.py lines 176-182): each item's
dict with the `receipt_file` key popped. -/
def displayView (items : List LineItem) : List (List (String × String)) :=
  items.map fun it => (toDict it).filter fun kv => kv.1 ≠ "receipt_file"

/-- The "final JSON" view at submission (src/app.py lines 276-278): the
dict comprehension keeping every key other than `receipt_file`. -/
def finalJsonView (items : List LineItem) : List (List (String × String)) :=
  items.map fun it => (toDict it).filter fun kv => kv.1 ≠ "receipt_file"

/-! ## Compliance-request assembly -/

/-- Model of Python `repr` for the strings at hand: single quotes around
the text. -/
def pyQuote (s : String) : String := "'" ++ s ++ "'"

/-- Model of `str` on a line-item dict: comma-separated quoted key-value
pairs in braces. -/
def dictStr (kvs : List (String × String)) : String :=
  "\x7b" ++ String.intercalate ", " (kvs.map fun kv => pyQuote kv.1 ++ ": " ++ pyQuote kv.2) ++ "\x7d"

/-- Model of `str(st.session_state.line_items)`: the bracketed,
comma-separated dict renderings, full fidelity including `receipt_file`. -/
def serializeLineItems (items : List LineItem) : String :=
  "[" ++ String.intercalate ", " (items.map fun it => dictStr (toDict it)) ++ "]"

/-- One chat message of the compliance request. -/
structure Message where
  role : String
  content : String
deriving DecidableEq, Repr

/-- The framing prefixed to the policy text in the first segment. -/
def policyFraming : String :=
  "Given to you is the travel manual or all the policies related to submitting expense: "

/-- The role instruction of the second segment. -/
def roleInstruction : String :=
  "You need to act as Policy violation checker, we will provide you with the line items of the expense, based on that you need to check and get back to with possible policy violations"

/-- The remediation-suggestion instruction opening the third segment. -/
def suggestionInstruction : String :=
  "Along with policy violation you should get back to user with suggestions. Here are the line items: "

/-- The response-format instruction of the last segment. -/
def formatInstruction : String :=
  "Always respond back in json format with keys line_item_no, policy_violations (value should be None if no policy violation is there), suggestion (if any policy violations are there)"

/-- Embedding of the messages array handed to the review service
(src/app.py lines 284-293): four system messages, with the suggestion
instruction and the serialized line items sharing the third. -/
def buildMessages (pdf_text : String) (items : List LineItem) : List Message :=
  [⟨"system", "Given to you is the travel manual or all the policies related to submitting expense: " ++ pdf_text⟩,
   ⟨"system", "You need to act as Policy violation checker, we will provide you with the line items of the expense, based on that you need to check and get back to with possible policy violations"⟩,
   ⟨"system", "Along with policy violation you should get back to user with suggestions. Here are the line items: " ++ serializeLineItems items⟩,
   ⟨"system", "Always respond back in json format with keys line_item_no, policy_violations (value should be None if no policy violation is there), suggestion (if any policy violations are there)"⟩]

/-- Embedding of the "Submit Expense Report" branch (src/app.py lines
273-295): it reads the session state to render the final JSON view and to
assemble the request, and performs no write to `line_items` or
`draft_fields`; the resulting state is returned alongside what was
produced. -/
def submitReport (st : SessionState) (pdfSrc : Except String (List String)) :
    SessionState × List (List (String × String)) × List Message :=
  (st, finalJsonView st.line_items,
    buildMessages (extract_text_from_pdf pdfSrc) st.line_items)

/-! ## Helper lemmas -/

theorem string_join_cons (x : String) (l : List String) :
    String.join (x :: l) = x ++ String.join l := by
  apply String.ext
  simp

theorem foldl_pages_eq (pages : List String) :
    ∀ acc : String, pages.foldl (fun text page => text ++ page ++ "\n") acc =
      acc ++ String.join (pages.map (fun p => p ++ "\n")) := by
  induction pages with
  | nil => intro acc; simp [String.join]
  | cons p ps ih =>
    intro acc
    simp only [List.foldl_cons, List.map_cons]
    rw [ih, string_join_cons]
    simp [String.append_assoc]

theorem isEmpty_false_of_ne (a : String) (h : a ≠ "") : a.isEmpty = false :=
  Bool.eq_false_iff.mpr (fun hb => h ((String.isEmpty_iff a).mp hb))

theorem empty_isEmpty : ("" : String).isEmpty = true := rfl

theorem resolveLodging_eq (f : CountryRegionField) :
    resolveLodging (some f) =
      f.value_country_region.getD "" ++ f.value_address.getD "" := by
  rcases f with ⟨r?, a?⟩
  rcases r? with _ | r <;> rcases a? with _ | a
  · rfl
  · by_cases ha : a = ""
    · subst ha; rfl
    · simp [resolveLodging, optStrTruthy, empty_isEmpty, isEmpty_false_of_ne a ha]
  · by_cases hr : r = ""
    · subst hr; rfl
    · simp [resolveLodging, optStrTruthy, empty_isEmpty, isEmpty_false_of_ne r hr]
  · by_cases hr : r = "" <;> by_cases ha : a = ""
    · subst hr; subst ha; rfl
    · subst hr
      simp [resolveLodging, optStrTruthy, empty_isEmpty, isEmpty_false_of_ne a ha]
    · subst ha
      simp [resolveLodging, optStrTruthy, empty_isEmpty, isEmpty_false_of_ne r hr]
    · simp [resolveLodging, optStrTruthy, isEmpty_false_of_ne r hr,
        isEmpty_false_of_ne a ha]

/-! ## Claim theorems -/

/-- Claim C6: for every analysis result, `lodging_location` is the region
code concatenated with the address when the country/region field carries
both, whichever one is present when only one is, and the empty string
when the field is absent or carries neither. -/
theorem C6_lodging_resolution (f : CountryRegionField) :
    resolveLodging none = "" ∧
    (∀ r a, f.value_country_region = some r → f.value_address = some a →
        resolveLodging (some f) = r ++ a) ∧
    (∀ r, f.value_country_region = some r → f.value_address = none →
        resolveLodging (some f) = r) ∧
    (∀ a, f.value_country_region = none → f.value_address = some a →
        resolveLodging (some f) = a) ∧
    (f.value_country_region = none → f.value_address = none →
        resolveLodging (some f) = "") := by
  refine ⟨rfl, ?_, ?_, ?_, ?_⟩
  · intro r a hr ha; rw [resolveLodging_eq, hr, ha]; rfl
  · intro r hr ha; rw [resolveLodging_eq, hr, ha]
    simp
  · intro a hr ha; rw [resolveLodging_eq, hr, ha]
    simp
  · intro hr ha; rw [resolveLodging_eq, hr, ha]; rfl

/-- Witness for C6 at the spec's example: region code `"US"` with address
`"12 Main St"` resolves to `"US12 Main St"`. -/
theorem C6_lodging_resolution_witness :
    resolveLodging (some ⟨some "US", some "12 Main St"⟩) = "US12 Main St" :=
  (C6_lodging_resolution ⟨some "US", some "12 Main St"⟩).2.1 "US" "12 Main St" rfl rfl

/-- Claim C8: a failure while reading the policy document is returned as
a plain `"Error: ..."` string rather than propagated, that string is
forwarded into the compliance request in the position of ordinary policy
text (the first segment), and on success the reader returns the
concatenated page text (each page followed by a newline, then stripped). -/
theorem C8_pdf_error_flow (e : String) (pages : List String) (items : List LineItem) :
    extract_text_from_pdf (.error e) = "Error: " ++ e ∧
    extract_text_from_pdf (.ok pages) =
      pyStrip (String.join (pages.map (fun p => p ++ "\n"))) ∧
    (buildMessages (extract_text_from_pdf (.error e)) items).head? =
      some ⟨"system", policyFraming ++ ("Error: " ++ e)⟩ := by
  refine ⟨rfl, ?_, rfl⟩
  show pyStrip _ = _
  rw [foldl_pages_eq]
  simp

/-- Concrete analysis result whose three date fields all carry the empty
string. -/
def exEmptyDates : AnalysisResult :=
  { content := "t"
    documents := [{ emptyFields with
                      arrivalDate := some ⟨some ""⟩
                      departureDate := some ⟨some ""⟩
                      transactionDate := some ⟨some ""⟩ }] }

/-- Claim C9: the date coercion returns `None` whenever the raw value is
missing or falsy, the raw-value fallback only ever fires for truthy
(non-empty) values, and an analysis result whose date fields carry empty
strings normalizes to absent `check_in`/`check_out`. -/
theorem C9_falsy_dates :
    to_date none = .none ∧
    to_date (some (.str "")) = .none ∧
    (∀ v, rawTruthy v = false → to_date (some v) = .none) ∧
    (∀ v, to_date (some v) = .raw v → rawTruthy v = true) ∧
    (parse_receipt exEmptyDates).map (fun r => (r.check_in, r.check_out)) =
      .ok (.none, .none) := by
  refine ⟨rfl, rfl, ?_, ?_, rfl⟩
  · intro v hv; simp [to_date, hv]
  · intro v hv
    cases v with
    | str s =>
      by_cases hs : s = ""
      · subst hs; exact absurd hv (by decide)
      · simp [rawTruthy, isEmpty_false_of_ne s hs]
    | dt t => rfl
    | date d => rfl

/-- Witness for C9: the empty-string date field coerces to `None`, by the
falsy clause of the theorem. -/
theorem C9_falsy_dates_witness : to_date (some (RawValue.str "")) = Coerced.none :=
  C9_falsy_dates.2.2.1 (RawValue.str "") rfl

/-- Claim C10: submitting the expense report leaves the session state
unchanged (the line items are neither removed nor reordered and the draft
is not reset), so a second submission with no intervening commits
produces exactly the same final-JSON view and request messages. -/
theorem C10_submit_frame (st : SessionState) (src : Except String (List String)) :
    (submitReport st src).1 = st ∧
    (submitReport st src).1.line_items = st.line_items ∧
    (submitReport st src).1.draft_fields = st.draft_fields ∧
    submitReport ((submitReport st src).1) src = submitReport st src :=
  ⟨rfl, rfl, rfl, rfl⟩

theorem commitMany_state (forms : List FormValues) :
    ∀ (st : SessionState) (today : Date),
      (commitMany st forms today).line_items =
        st.line_items ++ commitItems st.draft_fields.receipt_file forms ∧
      (commitMany st forms today).draft_fields =
        (if forms.isEmpty then st.draft_fields else emptyDraft today) := by
  induction forms with
  | nil => intro st today; simp [commitMany, commitItems]
  | cons f fs ih =>
    intro st today
    have h := ih { line_items := st.line_items ++ [mkLineItem f st.draft_fields.receipt_file],
                   draft_fields := emptyDraft today } today
    constructor
    · simp only [commitMany, List.foldl_cons, commit] at h ⊢
      rw [h.1]
      simp [commitItems, emptyDraft]
    · simp only [commitMany, List.foldl_cons, commit] at h ⊢
      rw [h.2]
      cases fs <;> simp [emptyDraft]

/-- Claim C4: committing appends exactly one line item, built from the
user-entered form values plus the draft's raw receipt content, and resets
the draft to its Empty defaults (empty strings, expense type
`"Hotel/Lodging"`, today for both check dates, zero amount, empty raw
content); iterated commit cycles append one item each, every cycle after
the first starting from the reset draft (no state leaks between cycles). -/
theorem C4_commit_cycle (st : SessionState) (form : FormValues) (today : Date)
    (forms : List FormValues) :
    commit st form today =
      { line_items := st.line_items ++ [mkLineItem form st.draft_fields.receipt_file]
        draft_fields := emptyDraft today } ∧
    emptyDraft today =
      { expense_name := ""
        expense_type := "Hotel/Lodging"
        cost_center := ""
        merchant_name := ""
        lodging_location := ""
        check_in := .pydate today
        check_out := .pydate today
        zip_code := ""
        estimated_amount := .zero
        receipt_file := "" } ∧
    (commitMany st forms today).line_items =
      st.line_items ++ commitItems st.draft_fields.receipt_file forms ∧
    (forms ≠ [] → (commitMany st forms today).draft_fields = emptyDraft today) := by
  refine ⟨rfl, rfl, (commitMany_state forms st today).1, ?_⟩
  intro hne
  rw [(commitMany_state forms st today).2, if_neg]
  simpa using hne

/-- Sample form values for concrete evaluations. -/
def sampleForm : FormValues :=
  { expense_name := "Trip"
    expense_type := "Hotel/Lodging"
    cost_center := "CC1"
    merchant_name := "Hotel X"
    lodging_location := "US12 Main St"
    check_in := "2024-05-01"
    check_out := "2024-05-03"
    zip_code := "10001"
    estimated_amount := "250.00" }

/-- Sample session state with one drafted receipt content. -/
def sampleState : SessionState :=
  { line_items := [], draft_fields := { emptyDraft ⟨2024, 5, 7⟩ with receipt_file := "RAW" } }

/-- Witness for C4: three consecutive commit cycles from the sample state
append three items and leave the draft at its Empty defaults. -/
theorem C4_commit_cycle_witness :
    (commitMany sampleState [sampleForm, sampleForm, sampleForm] ⟨2024, 5, 7⟩).draft_fields =
      emptyDraft ⟨2024, 5, 7⟩ :=
  (C4_commit_cycle sampleState sampleForm ⟨2024, 5, 7⟩
    [sampleForm, sampleForm, sampleForm]).2.2.2 (by simp)

/-- Sample committed line item carrying raw receipt content. -/
def sampleItem : LineItem := mkLineItem sampleForm "RAW"

/-- Claim C5: every user-facing rendering (the per-item display and the
final-JSON view at submission) excludes the `receipt_file` key from every
item, while every item's full dict — from which the compliance request
serializes the store — includes it; the request's line-items segment is
built from that full serialization. -/
theorem C5_raw_content_visibility (items : List LineItem) (p : String) :
    (∀ d ∈ displayView items, ∀ kv ∈ d, kv.1 ≠ "receipt_file") ∧
    (∀ d ∈ finalJsonView items, ∀ kv ∈ d, kv.1 ≠ "receipt_file") ∧
    (∀ it ∈ items, ("receipt_file", it.receipt_file) ∈ toDict it) ∧
    (buildMessages p items).get? 2 =
      some ⟨"system", suggestionInstruction ++ serializeLineItems items⟩ := by
  refine ⟨?_, ?_, ?_, rfl⟩
  · intro d hd kv hkv
    simp only [displayView, List.mem_map] at hd
    obtain ⟨it, -, rfl⟩ := hd
    exact of_decide_eq_true (List.mem_filter.mp hkv).2
  · intro d hd kv hkv
    simp only [finalJsonView, List.mem_map] at hd
    obtain ⟨it, -, rfl⟩ := hd
    exact of_decide_eq_true (List.mem_filter.mp hkv).2
  · intro it _
    simp [toDict]

/-- Witness for C5: the raw receipt content of the sample item is in its
full dict (as the request payload serializes it). -/
theorem C5_raw_content_visibility_witness :
    ("receipt_file", "RAW") ∈ toDict sampleItem :=
  (C5_raw_content_visibility [sampleItem] "").2.2.1 sampleItem (by simp)

/-- Counterexample to claim C3 as stated: the assembled request has four
instruction segments, not five, at a concrete policy text and store. -/
theorem C3_request_segments_cex :
    (buildMessages "P" [sampleItem]).length = 4 ∧
    (buildMessages "P" [sampleItem]).length ≠ 5 := by
  constructor
  · rfl
  · decide

/-- Claim C3 (amended): the request consists of exactly four segments in
order — the framed policy text, the violation-detection role instruction,
one segment holding both the remediation-suggestion instruction and the
serialized full line items, and the response-format instruction naming
the keys `line_item_no`, `policy_violations` and `suggestion`. -/
theorem C3_request_segments (policy : String) (items : List LineItem) :
    buildMessages policy items =
      [⟨"system", policyFraming ++ policy⟩,
       ⟨"system", roleInstruction⟩,
       ⟨"system", suggestionInstruction ++ serializeLineItems items⟩,
       ⟨"system", formatInstruction⟩] ∧
    (buildMessages policy items).length = 4 :=
  ⟨rfl, rfl⟩

/-- Concrete analysis result with unparseable arrival and departure text
and a valid transaction date. -/
def exC1 : AnalysisResult :=
  { content := "t"
    documents := [{ emptyFields with
                      arrivalDate := some ⟨some "notadate"⟩
                      departureDate := some ⟨some "alsobad"⟩
                      transactionDate := some ⟨some "2024-01-02"⟩ }] }

/-- Counterexample to claim C1 as stated: here neither arrival nor
departure resolves to a usable date while the transaction date does, yet
`check_in` is the raw arrival fallback rather than the transaction date. -/
theorem C1_date_decision_cex :
    (arrivalOf exC1).isDate = false ∧
    (departureOf exC1).isDate = false ∧
    transactionOf exC1 = Coerced.date ⟨2024, 1, 2⟩ ∧
    (parse_receipt exC1).map ReceiptRecord.check_in =
      Except.ok (Coerced.raw (RawValue.str "notadate")) ∧
    Coerced.raw (RawValue.str "notadate") ≠ Coerced.date ⟨2024, 1, 2⟩ := by
  refine ⟨rfl, rfl, rfl, rfl, ?_⟩
  decide

/-- Claim C1 (amended): the final date decision goes by Python truthiness
of the three coerced candidates (a truthy coercion is a valid date or a
non-empty raw fallback): if arrival and departure both coerce truthy,
`check_in`/`check_out` are those two coerced values; otherwise if the
transaction coercion is truthy, both equal it; otherwise both are absent. -/
theorem C1_date_decision (res : AnalysisResult) (r : ReceiptRecord)
    (h : parse_receipt res = .ok r) :
    ((coercedTruthy (arrivalOf res) && coercedTruthy (departureOf res)) = true →
        r.check_in = arrivalOf res ∧ r.check_out = departureOf res) ∧
    ((coercedTruthy (arrivalOf res) && coercedTruthy (departureOf res)) = false →
        coercedTruthy (transactionOf res) = true →
        r.check_in = transactionOf res ∧ r.check_out = transactionOf res) ∧
    ((coercedTruthy (arrivalOf res) && coercedTruthy (departureOf res)) = false →
        coercedTruthy (transactionOf res) = false →
        r.check_in = Coerced.none ∧ r.check_out = Coerced.none) := by
  rcases hd : res.documents.head? with _ | fields
  · simp only [parse_receipt, hd, Except.ok.injEq] at h
    subst h
    simp [arrivalOf, departureOf, transactionOf, hd, coercedTruthy]
  · simp only [parse_receipt, hd] at h
    rcases hz : zipResult fields.merchantAddress with e | zip <;> rw [hz] at h
    · exact absurd h (by simp)
    · simp only [Except.ok.injEq] at h
      subst h
      simp only [arrivalOf, departureOf, transactionOf, hd]
      refine ⟨fun h1 => ?_, fun h1 h2 => ?_, fun h1 h2 => ?_⟩
      · simp [h1]
      · simp [h1, h2]
      · simp [h1, h2]

/-- Concrete analysis result with valid arrival and departure dates plus a
transaction date. -/
def exBothDates : AnalysisResult :=
  { content := "t"
    documents := [{ emptyFields with
                      arrivalDate := some ⟨some "2024-05-01"⟩
                      departureDate := some ⟨some "2024-05-03"⟩
                      transactionDate := some ⟨some "2024-05-04"⟩ }] }

/-- The record `parse_receipt` produces for `exBothDates`. -/
def exBothRecord : ReceiptRecord :=
  { merchant_name := ""
    estimated_amount := .zero
    zip_code := ""
    check_in := .date ⟨2024, 5, 1⟩
    check_out := .date ⟨2024, 5, 3⟩
    logding_location := ""
    receipt_file_content := "t" }

/-- Witness for C1 (amended): with both candidate dates valid, the
normalized record takes them as `check_in`/`check_out`, the transaction
date notwithstanding. -/
theorem C1_date_decision_witness :
    exBothRecord.check_in = arrivalOf exBothDates ∧
    exBothRecord.check_out = departureOf exBothDates :=
  (C1_date_decision exBothDates exBothRecord rfl).1 rfl

/-- Concrete analysis result whose `MerchantAddress` field is present but
carries no address value. -/
def exC2 : AnalysisResult :=
  { content := "c"
    documents := [{ emptyFields with merchantAddress := some ⟨none⟩ }] }

/-- Claim C2 fails on the code: normalizing an analysis result whose
merchant-address field lacks an address value raises (the unguarded
`address_field.value_address.postal_code` access) instead of resolving to
defaults. -/
theorem C2_merchant_address_bug :
    parse_receipt exC2 =
      .error "AttributeError: NoneType object has no attribute postal_code" := rfl

/-- Counterexample to claim C7 as stated: the empty string fails ISO
parsing, yet the coercion returns `None` for it, not the raw value
unchanged. -/
theorem C7_to_date_cex :
    to_date (some (RawValue.str "")) = Coerced.none ∧
    parseIsoDate "" = none ∧
    Coerced.none ≠ Coerced.raw (RawValue.str "") := by
  refine ⟨rfl, rfl, ?_⟩
  decide

/-- Claim C7 (amended): for every truthy (non-empty) raw candidate value
the coercion returns the value itself if it is already a date or datetime
(a datetime reduced to its date part), the parsed date if ISO parsing of
its text succeeds, and the raw unparsed value unchanged on parse failure,
never an error; falsy values instead coerce to absent. -/
theorem C7_to_date (v : RawValue) (h : rawTruthy v = true) :
    (∀ t, v = .dt t → to_date (some v) = .date t.toDate) ∧
    (∀ d, v = .date d → to_date (some v) = .date d) ∧
    (∀ s d, v = .str s → parseIsoDate s = some d → to_date (some v) = .date d) ∧
    (∀ s, v = .str s → parseIsoDate s = none → to_date (some v) = .raw v) := by
  refine ⟨?_, ?_, ?_, ?_⟩
  · rintro t rfl; simp [to_date, rawTruthy]
  · rintro d rfl; simp [to_date, rawTruthy]
  · rintro s d rfl hp; simp [to_date, h, hp]
  · rintro s rfl hp; simp [to_date, h, hp]

/-- Witness for C7 (amended): a valid ISO date string parses, an
unparseable non-empty string falls back to itself. -/
theorem C7_to_date_witness :
    to_date (some (RawValue.str "2024-05-01")) = Coerced.date ⟨2024, 5, 1⟩ ∧
    to_date (some (RawValue.str "notadate")) = Coerced.raw (RawValue.str "notadate") :=
  ⟨(C7_to_date (.str "2024-05-01") rfl).2.2.1 "2024-05-01" ⟨2024, 5, 1⟩ rfl rfl,
   (C7_to_date (.str "notadate") rfl).2.2.2 "notadate" rfl rfl⟩
